import Mathlib

/-!
# Verification of the OMRChecker batch-processing orchestrator

Shallow embedding of `src/entry.py` (the hierarchical batch-processing
orchestrator of the OMR_CheckerProject repository) together with the
contracts of its external collaborators, and theorems settling the
specification claims about it.

The embedding models:
 * the preprocessing pipeline selection performed by `process_files`
   (entry.py lines 354-360) and `show_template_layouts` (lines 311-317);
 * the per-image classification loop `process_files` (lines 326-415),
   including the `STATS.files_not_moved = 0` reset at line 335, the
   decode-failure skip (lines 341-344), the preprocessing-failure /
   Errors branch (lines 363-371), the Results branch (lines 402-408)
   and the MultiMarked branch (lines 409-415);
 * `check_and_move` (lines 418-421);
 * the recursive directory walk `process_dir` (lines 158-302) with its
   tuning-config resolution (lines 171-174), template resolution
   (lines 183-225), exclusion-set construction (lines 231-256), the
   missing-template error (lines 260-266) and the recursion into
   subdirectories (lines 291-302).

Images, the pixel-level recognition engine and the scoring engine are
out of scope of the orchestrator (spec §1, §6); they appear as an
abstract image type and as function-valued fields of the template /
evaluation-config records.
-/

namespace OMR

/-- The cell written into the score column of an output row: either the
string "NA" or a numeric score (the code stringifies both; the tag
records whether the cell is numeric). -/
inductive ScoreField where
  | na : ScoreField
  | num : Int → ScoreField
deriving DecidableEq, Repr

/-- `Stats` from `src/utils/interaction.py` lines 54-60: two counters,
both initialised to 0. -/
structure Stats where
  files_moved : Nat := 0
  files_not_moved : Nat := 0
deriving DecidableEq, Repr

/-- A preprocessing step (`template.pre_processors` element).  Its
`transform` is the external pixel-level operation (`apply_preprocessors`
applies it; `none` is the failure-signal, e.g. marker not found); its
`exclude_files` is the fallible exclusion query wrapped in try/except at
entry.py lines 235-239 (`Except.error` models a raised exception). -/
structure Step (Img : Type) where
  name : String
  transform : Img → Option Img
  exclude_files : Except Unit (List String)

/-- The layout template resolved for a directory.  `read_omr_response`
is the external recognition gateway (entry.py line 375 combined with
`get_concatenated_response` at line 379, both external to the
orchestrator): it produces the concatenated response map and the
multi-mark indicator. -/
structure Template (Img : Type) where
  pre_processors : List (Step Img)
  output_columns : List String
  read_omr_response : Img → (String → String) × Bool

/-- The evaluation config constructed at entry.py lines 247-252.
`evaluate` is the external scoring engine
(`evaluate_concatenated_response`, line 382); `get_exclude_files` is the
fallible exclusion query wrapped in try/except at lines 253-256. -/
structure EvaluationConfig where
  evaluate : List String → Int
  get_exclude_files : Except Unit (List String)

/-- The tuning-parameter fields the orchestrator reads
(`tuning_config.outputs.filter_out_multimarked_files` at entry.py line
402, `outputs.show_image_level` at line 390, `alignment_params.auto_align`
at line 144). -/
structure TuningConfig where
  filter_out_multimarked_files : Bool
  show_image_level : Nat
  auto_align : Bool
deriving DecidableEq, Repr

/-- A local `config.json` file: a key-by-key override, absent keys
falling back to the defaults. -/
structure ConfigFile where
  filter_out_multimarked_files : Option Bool
  show_image_level : Option Nat
  auto_align : Option Bool
deriving DecidableEq, Repr

/-- Modelled from the spec: `CONFIG_DEFAULTS` (imported from
`src/defaults.py`, which is not part of the given sources) — the
system-wide default tuning parameters (spec glossary: "numeric/behavioral
knobs ... with system-wide defaults"). -/
def CONFIG_DEFAULTS : TuningConfig :=
  { filter_out_multimarked_files := false
    show_image_level := 0
    auto_align := false }

/-- Modelled from the spec: `open_config_with_defaults` (imported from
`src/utils/parsing.py`, not part of the given sources) — "replace
tuning_parameters with the merge of defaults and that file (local file
wins key-by-key over defaults; it does not merge against the parent's
already-resolved tuning_parameters)" (spec §4.1). -/
def open_config_with_defaults (file : ConfigFile) : TuningConfig :=
  { filter_out_multimarked_files :=
      file.filter_out_multimarked_files.getD CONFIG_DEFAULTS.filter_out_multimarked_files
    show_image_level := file.show_image_level.getD CONFIG_DEFAULTS.show_image_level
    auto_align := file.auto_align.getD CONFIG_DEFAULTS.auto_align }

/-- One candidate sheet-image file discovered in a directory.
`decoded` is the result of `cv2.imread` (entry.py line 341): `none`
models a decode failure. -/
structure OmrFile (Img : Type) where
  file_name : String
  file_path : String
  decoded : Option Img
deriving DecidableEq

/-- One row of a tabular output file (entry.py lines 367, 405, 412:
`[file_name, file_path, new_file_path, score] + resp`). -/
structure Row where
  file_name : String
  file_path : String
  new_file_path : String
  score : ScoreField
  responses : List String
deriving DecidableEq, Repr

/-- The per-directory outputs namespace (`outputs_namespace`): the three
tabular files, the in-memory `OUTPUT_SET` buffer, the empty-response row
template and the destination directories. -/
structure Outputs where
  empty_resp : List String
  save_marked_dir : String
  errors_dir : String
  multi_marked_dir : String
  output_set : List (List String)
  results : List Row
  errors : List Row
  multi_marked : List Row
deriving DecidableEq, Repr

/-- Modelled from the spec: `setup_outputs_for_template` (imported from
`src/utils/file.py`, not part of the given sources) — creates the
per-directory outputs namespace with empty tabular files and an
"empty response" row template with one placeholder per declared output
column (spec §3, OutputsNamespace). -/
def setup_outputs_for_template {Img : Type} (t : Template Img) : Outputs :=
  { empty_resp := t.output_columns.map (fun _ => "")
    save_marked_dir := "CheckedOMRs"
    errors_dir := "Errors"
    multi_marked_dir := "MultiMarkedFiles"
    output_set := []
    results := []
    errors := []
    multi_marked := [] }

/-! ## The preprocessing pipeline -/

/-- Modelled from the spec:
`template.image_instance_ops.apply_preprocessors` (external to the
orchestrator, spec §4.3) — "Steps execute strictly in the template's
declared order over the same image buffer, each step consuming the
previous step's output.  A step may unilaterally halt the pipeline by
yielding a failure-signal; all remaining steps are skipped and the
overall preprocessing call returns failure." -/
def apply_preprocessors {Img : Type} (steps : List (Step Img)) (img : Img) : Option Img :=
  steps.foldl (fun acc s => acc.bind s.transform) (some img)

/-- The step filter at entry.py lines 355-357 (and identically at lines
312-314): `[pp for pp in template.pre_processors if pp.__class__.__name__ == "CropOnMarkers"]`. -/
def crop_on_markers_only {Img : Type} (steps : List (Step Img)) : List (Step Img) :=
  steps.filter (fun pp => pp.name == "CropOnMarkers")

/-- The preprocessing applied to each image by `process_files`
(entry.py lines 354-360): the step list is first filtered to the
CropOnMarkers steps ("Force skip CropPage and only apply CropOnMarkers"),
then `apply_preprocessors` runs. -/
def process_files_preprocess {Img : Type} (t : Template Img) (img : Img) : Option Img :=
  apply_preprocessors (crop_on_markers_only t.pre_processors) img

/-- The preprocessing applied to each image by `show_template_layouts`
(entry.py lines 311-317): the same CropOnMarkers-only filter, then
`apply_preprocessors`. -/
def show_template_layouts_preprocess {Img : Type} (t : Template Img) (img : Img) : Option Img :=
  apply_preprocessors (crop_on_markers_only t.pre_processors) img

/-- The pipeline as the specification describes it for normal (non
set-layout) processing: all of the template's declared steps, in
declared order (spec §4.3).  Kept for comparison with
`process_files_preprocess`, which is what the source actually runs. -/
def spec_declared_pipeline {Img : Type} (t : Template Img) (img : Img) : Option Img :=
  apply_preprocessors t.pre_processors img

/-! ## The per-image classification loop (`process_files`) -/

/-- `check_and_move` (entry.py lines 418-421): the file-move stage is a
degenerate no-op that increments `STATS.files_not_moved` and always
reports success. -/
def check_and_move (st : Stats) : Stats × Bool :=
  ({ st with files_not_moved := st.files_not_moved + 1 }, true)

/-- The body of the `for file_path in omr_files` loop of `process_files`
(entry.py lines 337-415), processing a single image:
 * decode failure (`in_omr is None`, lines 341-344): skip, no state
   change;
 * preprocessing failure (lines 363-371): append to `OUTPUT_SET`, run
   `check_and_move`, and (as it reports success) append an Errors row
   with score "NA" and the empty response template;
 * otherwise recognize (line 375), evaluate when an evaluation config is
   resolved else score 0 (lines 381-388), append to `OUTPUT_SET`
   (line 400), then either append a Results row with the numeric score
   and increment `files_not_moved` (lines 402-408), or run
   `check_and_move` and append a MultiMarked row with score "NA"
   (lines 409-415). -/
def process_one_file {Img : Type} (t : Template Img) (ec : Option EvaluationConfig)
    (tc : TuningConfig) (acc : Stats × Outputs) (f : OmrFile Img) : Stats × Outputs :=
  let st := acc.1
  let o := acc.2
  match f.decoded with
  | none => (st, o)
  | some img =>
    match process_files_preprocess t img with
    | none =>
      let o := { o with output_set := o.output_set ++ [f.file_name :: o.empty_resp] }
      let cm := check_and_move st
      if cm.2 then
        (cm.1, { o with errors := o.errors ++
          [{ file_name := f.file_name
             file_path := f.file_path
             new_file_path := o.errors_dir ++ "/" ++ f.file_name
             score := ScoreField.na
             responses := o.empty_resp }] })
      else (cm.1, o)
    | some pre =>
      let rr := t.read_omr_response pre
      let omr_response := rr.1
      let multi_marked := rr.2
      let resp_array := t.output_columns.map omr_response
      let score : Int :=
        match ec with
        | some e => e.evaluate resp_array
        | none => 0
      let o := { o with output_set := o.output_set ++ [f.file_name :: resp_array] }
      if multi_marked == false || !tc.filter_out_multimarked_files then
        ({ st with files_not_moved := st.files_not_moved + 1 },
         { o with results := o.results ++
           [{ file_name := f.file_name
              file_path := f.file_path
              new_file_path := o.save_marked_dir ++ "/" ++ f.file_name
              score := ScoreField.num score
              responses := resp_array }] })
      else
        let cm := check_and_move st
        if cm.2 then
          (cm.1, { o with multi_marked := o.multi_marked ++
            [{ file_name := f.file_name
               file_path := f.file_path
               new_file_path := o.multi_marked_dir ++ "/" ++ f.file_name
               score := ScoreField.na
               responses := resp_array }] })
        else (cm.1, o)

/-- `process_files` (entry.py lines 326-415): reset
`STATS.files_not_moved` to 0 (line 335), then process the directory's
images in order.  `st` is the global `STATS` value on entry; the result
pairs the updated `STATS` with the updated outputs namespace. -/
def process_files {Img : Type} (t : Template Img) (ec : Option EvaluationConfig)
    (tc : TuningConfig) (omr_files : List (OmrFile Img)) (st : Stats) (o : Outputs) :
    Stats × Outputs :=
  omr_files.foldl (process_one_file t ec tc) ({ st with files_not_moved := 0 }, o)

/-! ## The recursive directory walk (`process_dir`) -/

mutual
/-- One directory node of the input tree: its name, the local override
files it may contain (`config.json`, `template.json`, `evaluation.json`
— a local template/evaluation file is modelled as the already-loaded
object, their parsing being external to the orchestrator), its
discovered top-level sheet-image files, and its subdirectories. -/
inductive DirTree (Img : Type) where
  | mk : String → Option ConfigFile → Option (Template Img) →
      Option EvaluationConfig → List (OmrFile Img) → DirForest Img → DirTree Img

/-- A list of sibling subdirectories. -/
inductive DirForest (Img : Type) where
  | nil : DirForest Img
  | cons : DirTree Img → DirForest Img → DirForest Img
end

/-- The exclusion contribution of the active preprocessing steps
(entry.py lines 232-239): each step's `exclude_files()` is queried
inside `try/except`; a step whose query raises contributes nothing
("ignore processors that don't support exclude_files"). -/
def excluded_of_steps {Img : Type} (steps : List (Step Img)) : List String :=
  steps.foldl
    (fun acc pp =>
      match pp.exclude_files with
      | Except.ok fs => acc ++ fs
      | Except.error _ => acc)
    []

/-- The exclusion contribution of the resolved evaluation config
(entry.py lines 253-256): `get_exclude_files()` inside `try/except`,
failure contributing nothing. -/
def excluded_of_eval (e : EvaluationConfig) : List String :=
  match e.get_exclude_files with
  | Except.ok fs => fs
  | Except.error _ => []

/-- The tuning-config resolution of `process_dir` (entry.py lines
171-174): a local `config.json` replaces the inherited value with the
merge of defaults and that file; otherwise the inherited value is kept
unchanged. -/
def resolve_tuning (local_config : Option ConfigFile) (inherited : TuningConfig) :
    TuningConfig :=
  match local_config with
  | some f => open_config_with_defaults f
  | none => inherited

/-- Code-point-wise comparison of character lists (the order in which
Python's `sorted` ranks path strings). -/
def chars_le : List Char → List Char → Bool
  | [], _ => true
  | _ :: _, [] => false
  | a :: as, b :: bs =>
    if a.toNat < b.toNat then true
    else if b.toNat < a.toNat then false
    else chars_le as bs

/-- Name order on strings, by code points. -/
def name_le (a b : String) : Bool := chars_le a.data b.data

/-- Insertion of a file into a name-sorted list (helper for the
`sorted(...)` call at entry.py line 229). -/
def insert_by_name {Img : Type} (f : OmrFile Img) :
    List (OmrFile Img) → List (OmrFile Img)
  | [] => [f]
  | g :: gs =>
    if name_le f.file_name g.file_name then f :: g :: gs else g :: insert_by_name f gs

/-- `sorted(...)` at entry.py line 229: the discovered image files in
name order. -/
def sort_by_name {Img : Type} : List (OmrFile Img) → List (OmrFile Img)
  | [] => []
  | f :: fs => insert_by_name f (sort_by_name fs)

/-- The full exclusion set of a directory (entry.py lines 231-256): the
union of the active steps' fallible exclusion queries (only when a
template is resolved) and, outside set-layout mode, the local
evaluation config's fallible exclusion query. -/
def excluded_files_of {Img : Type} (setLayout : Bool) (template : Option (Template Img))
    (local_eval : Option EvaluationConfig) : List String :=
  (match template with
   | some t => excluded_of_steps t.pre_processors
   | none => []) ++
  (if !setLayout then
    match local_eval with
    | some e => excluded_of_eval e
    | none => []
  else [])

/-- File discovery and exclusion for a directory (entry.py lines
228-258): sort the discovered files by name, then drop those claimed by
the exclusion set. -/
def discovered_omr_files {Img : Type} (setLayout : Bool) (template : Option (Template Img))
    (local_eval : Option EvaluationConfig) (files : List (OmrFile Img)) :
    List (OmrFile Img) :=
  (sort_by_name files).filter
    (fun f => !(excluded_files_of setLayout template local_eval).contains f.file_name)

/-- The template resolution of `process_dir` (entry.py lines 183-225):
a root-injected `template_file` takes precedence (and then the on-disk
local template file is not consulted); otherwise a local template file,
if present, replaces the inherited template. -/
def resolve_template {Img : Type} (template_file : Option (Template Img))
    (local_template : Option (Template Img)) (inherited : Option (Template Img)) :
    Option (Template Img) :=
  match template_file with
  | some injected => some injected
  | none =>
    match local_template with
    | some t => some t
    | none => inherited

/-- The evaluation-config resolution of `process_dir` (entry.py lines
241-252): outside set-layout mode a local evaluation file replaces the
inherited config; in set-layout mode the block is skipped entirely. -/
def resolve_evaluation_config (setLayout : Bool) (local_eval : Option EvaluationConfig)
    (inherited : Option EvaluationConfig) : Option EvaluationConfig :=
  if !setLayout then
    match local_eval with
    | some e => some e
    | none => inherited
  else inherited

/-- The run-global state threaded through the walk: the module-level
`STATS`, the rows accumulated per directory (each directory with
processable images gets its own freshly created outputs namespace,
entry.py line 269), the value of `STATS.files_not_moved` observed right
after each directory's `process_files` call returned, and the resolved
tuning config logged by `print_config_summary` (entry.py line 271) for
each directory with processable images. -/
structure RunState where
  stats : Stats
  dir_results : List (String × Outputs)
  files_not_moved_trace : List Nat
  tuning_trace : List (String × TuningConfig)
deriving DecidableEq, Repr

/-- The initial run state: fresh `Stats` counters (both 0), nothing
processed yet. -/
def RunState.init : RunState :=
  { stats := {}, dir_results := [], files_not_moved_trace := [], tuning_trace := [] }

/-- The non-recursive part of `process_dir` for one directory node
(entry.py lines 228-289), after its configuration scope has been
resolved: discover and exclude image files; if any remain, require a
resolved template (raising the structural error naming the directory
otherwise, lines 260-266), create a fresh outputs namespace, log the
configuration summary and, outside set-layout mode, run
`process_files` (in set-layout mode `show_template_layouts` only
displays images and changes no run state). -/
def process_node {Img : Type} (name : String) (setLayout : Bool)
    (template : Option (Template Img)) (tuning_config : TuningConfig)
    (evaluation_config : Option EvaluationConfig) (local_eval : Option EvaluationConfig)
    (files : List (OmrFile Img)) (rs : RunState) : Except String RunState :=
  match discovered_omr_files setLayout template local_eval files with
  | [] => Except.ok rs
  | f :: fs =>
    match template with
    | none => Except.error ("No template file found in the directory tree of " ++ name)
    | some t =>
      let rs := { rs with tuning_trace := rs.tuning_trace ++ [(name, tuning_config)] }
      if setLayout then Except.ok rs
      else
        let outputs_namespace := setup_outputs_for_template t
        let res := process_files t evaluation_config tuning_config (f :: fs)
          rs.stats outputs_namespace
        Except.ok
          { rs with
            stats := res.1
            dir_results := rs.dir_results ++ [(name, res.2)]
            files_not_moved_trace :=
              rs.files_not_moved_trace ++ [res.1.files_not_moved] }

mutual
/-- `process_dir` (entry.py lines 158-302).  Arguments after the node:
`setLayout` (from `args`), the root-injected template (`template_file`,
only ever non-`none` at the root, modelled as an already-loaded
template), and the inherited `template`, `tuning_config` and
`evaluation_config` parameters.  Resolves the node's configuration
scope (lines 171-174, 183-225, 241-252), runs the node's own
processing (`process_node`, lines 228-289), then recurses into
subdirectories with the resolved (not re-loaded) scope and
`template_file=None` (lines 291-302); a structural error unwinds
without processing the subtree. -/
def process_dir {Img : Type} (node : DirTree Img) (setLayout : Bool)
    (template_file : Option (Template Img)) (template : Option (Template Img))
    (tuning_config : TuningConfig) (evaluation_config : Option EvaluationConfig)
    (rs : RunState) : Except String RunState :=
  match node with
  | DirTree.mk name local_config local_template local_eval files subdirs =>
    let tuning_config := resolve_tuning local_config tuning_config
    let template := resolve_template template_file local_template template
    let evaluation_config := resolve_evaluation_config setLayout local_eval evaluation_config
    match process_node name setLayout template tuning_config evaluation_config
      local_eval files rs with
    | Except.error e => Except.error e
    | Except.ok rs =>
      process_forest subdirs setLayout template tuning_config evaluation_config rs

/-- The `for d in subdirs: process_dir(...)` loop of entry.py lines
292-302, propagating the resolved configuration scope to each child. -/
def process_forest {Img : Type} (subdirs : DirForest Img) (setLayout : Bool)
    (template : Option (Template Img)) (tuning_config : TuningConfig)
    (evaluation_config : Option EvaluationConfig) (rs : RunState) :
    Except String RunState :=
  match subdirs with
  | DirForest.nil => Except.ok rs
  | DirForest.cons d ds =>
    match process_dir d setLayout none template tuning_config evaluation_config rs with
    | Except.ok rs => process_forest ds setLayout template tuning_config evaluation_config rs
    | Except.error e => Except.error e
end

/-- `entry_point` (entry.py lines 109-120) as far as the orchestrator's
state is concerned: process the root directory with default inherited
configuration (`template=None`, `tuning_config=CONFIG_DEFAULTS`,
`evaluation_config=None`) starting from fresh statistics. -/
def entry_point {Img : Type} (root : DirTree Img) (setLayout : Bool)
    (template_file : Option (Template Img)) : Except String RunState :=
  process_dir root setLayout template_file none CONFIG_DEFAULTS none RunState.init

/-! ## Derived counting functions -/

/-- The number of files in a directory's image list that decode
successfully (the images that are actually classified; entry.py lines
341-344 skip the rest). -/
def decoded_count {Img : Type} (files : List (OmrFile Img)) : Nat :=
  (files.filter (fun f => f.decoded.isSome)).length

/-- The total number of rows across the three tabular output files of
one outputs namespace. -/
def total_rows (o : Outputs) : Nat :=
  o.results.length + o.errors.length + o.multi_marked.length

/-- The exclusion contribution of a single step as the spec describes
it: its declared paths when the query succeeds, the empty set when the
query fails. -/
def step_exclusion_contribution {Img : Type} (pp : Step Img) : List String :=
  match pp.exclude_files with
  | Except.ok fs => fs
  | Except.error _ => []

/-! ## Concrete instances (over `Img := Nat`) used by witnesses and
counterexamples -/

/-- A page-cropping step that succeeds (image id incremented so that its
effect is observable). -/
def cropPageStep : Step Nat :=
  { name := "CropPage"
    transform := fun n => some (n + 1)
    exclude_files := Except.ok [] }

/-- A marker-cropping step that succeeds. -/
def cropOnMarkersStep : Step Nat :=
  { name := "CropOnMarkers"
    transform := fun n => some (n + 10)
    exclude_files := Except.ok ["omr_marker.jpg"] }

/-- A marker-cropping step whose transform fails (marker not found). -/
def failingMarkersStep : Step Nat :=
  { name := "CropOnMarkers"
    transform := fun _ => none
    exclude_files := Except.ok [] }

/-- A step whose exclusion query raises. -/
def failingQueryStep : Step Nat :=
  { name := "CropOnMarkers"
    transform := fun n => some n
    exclude_files := Except.error () }

/-- A demo template whose recognition gateway answers every question and
never reports a multi-mark. -/
def demoTemplate (steps : List (Step Nat)) : Template Nat :=
  { pre_processors := steps
    output_columns := ["q1", "q2"]
    read_omr_response := fun img => (fun q => if q = "q1" then toString img else "B", false) }

/-- A demo image file that decodes successfully. -/
def demoFileA : OmrFile Nat :=
  { file_name := "a.png", file_path := "dir/a.png", decoded := some 1 }

/-- A second demo image file that decodes successfully. -/
def demoFileB : OmrFile Nat :=
  { file_name := "b.png", file_path := "dir/b.png", decoded := some 2 }

/-- A third demo image file (for the subdirectory), decoding
successfully. -/
def demoFileC : OmrFile Nat :=
  { file_name := "c.png", file_path := "sub/c.png", decoded := some 3 }

/-- A demo image file that fails to decode. -/
def demoBadFile : OmrFile Nat :=
  { file_name := "bad.png", file_path := "dir/bad.png", decoded := none }

/-- A two-directory input tree: the root holds a template and two
decodable images, the subdirectory holds one decodable image and
inherits the template. -/
def c2Tree : DirTree Nat :=
  DirTree.mk "root" none (some (demoTemplate [])) none [demoFileA, demoFileB]
    (DirForest.cons (DirTree.mk "sub" none none none [demoFileC] DirForest.nil)
      DirForest.nil)

/-- A parent/child input tree parametrised by the two directories' local
tuning-config files; the parent holds the template, the child inherits
it. -/
def c5Tree (pCfg cCfg : Option ConfigFile) : DirTree Nat :=
  DirTree.mk "parent" pCfg (some (demoTemplate [])) none [demoFileA]
    (DirForest.cons (DirTree.mk "child" cCfg none none [demoFileB] DirForest.nil)
      DirForest.nil)

/-- A demo evaluation config: the external scoring engine scores a
response list by its length; the config declares one consumed asset. -/
def demoEval : EvaluationConfig :=
  { evaluate := fun rs => (rs.length : Int)
    get_exclude_files := Except.ok ["answer_key.png"] }

/-- The score-field discipline of the three tabular files: Errors and
MultiMarked rows carry the "NA" placeholder, Results rows carry a
numeric score, and with no resolved evaluation config that numeric
score is 0. -/
def score_fields_ok (ec : Option EvaluationConfig) (o : Outputs) : Prop :=
  (∀ r ∈ o.errors, r.score = ScoreField.na) ∧
  (∀ r ∈ o.multi_marked, r.score = ScoreField.na) ∧
  (∀ r ∈ o.results, ∃ s, r.score = ScoreField.num s) ∧
  (ec = none → ∀ r ∈ o.results, r.score = ScoreField.num 0)

/-! ## Helper lemmas -/

/-- Splitting `decoded_count` at the head of the list. -/
theorem decoded_count_cons {Img : Type} (f : OmrFile Img) (fs : List (OmrFile Img)) :
    decoded_count (f :: fs) = decoded_count fs + (if f.decoded.isSome then 1 else 0) := by
  simp only [decoded_count, List.filter_cons]
  split
  · simp [Nat.add_comm]
  · simp

/-- Processing one file leaves `files_moved` unchanged and increments
`files_not_moved` exactly when the file decodes. -/
theorem process_one_file_stats {Img : Type} (t : Template Img)
    (ec : Option EvaluationConfig) (tc : TuningConfig) (acc : Stats × Outputs)
    (f : OmrFile Img) :
    (process_one_file t ec tc acc f).1.files_moved = acc.1.files_moved ∧
    (process_one_file t ec tc acc f).1.files_not_moved =
      acc.1.files_not_moved + (if f.decoded.isSome then 1 else 0) := by
  unfold process_one_file check_and_move
  cases hd : f.decoded with
  | none => simp
  | some img =>
    cases hp : process_files_preprocess t img with
    | none => simp [hp]
    | some pre =>
      simp only [hp, Option.isSome_some, if_true]
      split <;> simp

/-- Processing one file adds one row across the three tabular files
exactly when the file decodes. -/
theorem process_one_file_rows {Img : Type} (t : Template Img)
    (ec : Option EvaluationConfig) (tc : TuningConfig) (acc : Stats × Outputs)
    (f : OmrFile Img) :
    total_rows (process_one_file t ec tc acc f).2 =
      total_rows acc.2 + (if f.decoded.isSome then 1 else 0) := by
  unfold process_one_file check_and_move total_rows
  cases hd : f.decoded with
  | none => simp
  | some img =>
    cases hp : process_files_preprocess t img with
    | none =>
      simp only [hp, Option.isSome_some, if_true]
      simp
      omega
    | some pre =>
      simp only [hp, Option.isSome_some, if_true]
      split <;> (simp; omega)

/-- Folding `process_one_file` over a file list: `files_moved` is
untouched and `files_not_moved` grows by the number of decodable
files. -/
theorem foldl_process_stats {Img : Type} (t : Template Img)
    (ec : Option EvaluationConfig) (tc : TuningConfig) :
    ∀ (files : List (OmrFile Img)) (acc : Stats × Outputs),
      (files.foldl (process_one_file t ec tc) acc).1.files_moved = acc.1.files_moved ∧
      (files.foldl (process_one_file t ec tc) acc).1.files_not_moved =
        acc.1.files_not_moved + decoded_count files := by
  intro files
  induction files with
  | nil => intro acc; simp [decoded_count]
  | cons f fs ih =>
    intro acc
    rw [List.foldl_cons]
    have h1 := process_one_file_stats t ec tc acc f
    have h2 := ih (process_one_file t ec tc acc f)
    refine ⟨h2.1.trans h1.1, ?_⟩
    rw [h2.2, h1.2, decoded_count_cons]
    cases hb : f.decoded.isSome <;> simp [hb] <;> omega

/-- Folding `process_one_file` over a file list: the total row count
grows by the number of decodable files. -/
theorem foldl_process_rows {Img : Type} (t : Template Img)
    (ec : Option EvaluationConfig) (tc : TuningConfig) :
    ∀ (files : List (OmrFile Img)) (acc : Stats × Outputs),
      total_rows (files.foldl (process_one_file t ec tc) acc).2 =
        total_rows acc.2 + decoded_count files := by
  intro files
  induction files with
  | nil => intro acc; simp [decoded_count]
  | cons f fs ih =>
    intro acc
    rw [List.foldl_cons, ih (process_one_file t ec tc acc f),
      process_one_file_rows t ec tc acc f, decoded_count_cons]
    cases hb : f.decoded.isSome <;> simp [hb] <;> omega

/-! ## Claim theorems -/

/-- C1, counterexample: the claim says the restricted
(CropOnMarkers-only) pipeline mode applies only to the layout-preview
invocation and that normal processing executes all of the template's
declared steps in order.  On a template declaring one CropPage step,
the preprocessing actually run by `process_files` (entry.py lines
354-360 force-filter the step list to CropOnMarkers steps before
applying it) differs from the declared pipeline at image 0. -/
theorem c1_counterexample :
    process_files_preprocess (demoTemplate [cropPageStep]) 0 ≠
      spec_declared_pipeline (demoTemplate [cropPageStep]) 0 := by
  decide

/-- C1 (amended): the CropOnMarkers-only restriction applies to both
the normal `process_files` invocation and the `show_template_layouts`
(set-layout) invocation: both run the same restricted pipeline, the
preprocessing result depends only on the CropOnMarkers steps of the
template, and a template with no CropOnMarkers step has its image
passed through unchanged. -/
theorem c1_restricted_pipeline_both_modes {Img : Type} (t t' : Template Img) (img : Img) :
    process_files_preprocess t img = show_template_layouts_preprocess t img ∧
    (crop_on_markers_only t.pre_processors = crop_on_markers_only t'.pre_processors →
      process_files_preprocess t img = process_files_preprocess t' img) ∧
    ((t.pre_processors.all fun pp => pp.name != "CropOnMarkers") = true →
      process_files_preprocess t img = some img) := by
  refine ⟨rfl, ?_, ?_⟩
  · intro h
    unfold process_files_preprocess
    rw [h]
  · intro h
    have hnil : crop_on_markers_only t.pre_processors = [] := by
      rw [crop_on_markers_only, List.filter_eq_nil_iff]
      intro pp hpp
      have hall := List.all_eq_true.mp h pp hpp
      simpa using hall
    rw [process_files_preprocess, hnil]
    rfl

/-- Witness for `c1_restricted_pipeline_both_modes` at concrete
templates: a CropPage-only template and its duplicated variant select
the same (empty) CropOnMarkers sublist, so both preprocess image 0 to
the same result, and the CropPage-only template passes the image
through unchanged. -/
theorem c1_restricted_pipeline_both_modes_witness :
    process_files_preprocess (demoTemplate [cropPageStep]) 0 =
      process_files_preprocess (demoTemplate [cropPageStep, cropPageStep]) 0 ∧
    process_files_preprocess (demoTemplate [cropPageStep]) 0 = some 0 :=
  ⟨(c1_restricted_pipeline_both_modes (demoTemplate [cropPageStep])
      (demoTemplate [cropPageStep, cropPageStep]) 0).2.1 rfl,
   (c1_restricted_pipeline_both_modes (demoTemplate [cropPageStep])
      (demoTemplate [cropPageStep]) 0).2.2 (by decide)⟩

/-- C2, counterexample: the claim says neither Stats counter is reset
between the start and the end of the recursive walk, so their values
are non-decreasing across the directories of one run.  On a run over
`c2Tree` (root: two decodable images, subdirectory: one decodable
image) the value of `STATS.files_not_moved` observed after each
directory's processing is `[2, 1]` — it decreased, because
`process_files` resets it to 0 on entry (entry.py line 335) — and the
final value 1 is smaller than the 3 classified images of the run. -/
theorem c2_counterexample :
    (process_dir c2Tree false none none CONFIG_DEFAULTS none RunState.init).map
        (fun rs => (rs.files_not_moved_trace, rs.stats.files_not_moved,
          (rs.dir_results.map (fun p => total_rows p.2)).sum))
      = Except.ok ([2, 1], 1, 3) ∧ ¬ ((2 : Nat) ≤ 1) :=
  ⟨rfl, by decide⟩

/-- C2 (amended): `files_moved` is indeed never modified by the walk,
but `files_not_moved` is reset to 0 at the start of each directory's
`process_files` call; after the call it equals the number of decodable
images of that directory alone, independently of its value on entry. -/
theorem c2_stats_reset_per_directory {Img : Type} (t : Template Img)
    (ec : Option EvaluationConfig) (tc : TuningConfig) (files : List (OmrFile Img))
    (st : Stats) (o : Outputs) :
    (process_files t ec tc files st o).1.files_moved = st.files_moved ∧
    (process_files t ec tc files st o).1.files_not_moved = decoded_count files := by
  have h := foldl_process_stats t ec tc files ({ st with files_not_moved := 0 }, o)
  unfold process_files
  exact ⟨h.1, by rw [h.2]; simp⟩

/-- C3: every discovered, non-excluded image that decodes contributes
exactly one row to exactly one of the three tabular output channels:
the total row count across Results, Errors and MultiMarked grows by
exactly the number of decodable images, and each decodable image makes
exactly one channel grow by one row while leaving the other two
untouched. -/
theorem c3_exactly_one_channel {Img : Type} (t : Template Img)
    (ec : Option EvaluationConfig) (tc : TuningConfig) (files : List (OmrFile Img))
    (st : Stats) (o : Outputs) :
    total_rows (process_files t ec tc files st o).2 = total_rows o + decoded_count files ∧
    (∀ (acc : Stats × Outputs) (f : OmrFile Img) (img : Img), f.decoded = some img →
      ((process_one_file t ec tc acc f).2.results.length = acc.2.results.length + 1 ∧
        (process_one_file t ec tc acc f).2.errors = acc.2.errors ∧
        (process_one_file t ec tc acc f).2.multi_marked = acc.2.multi_marked) ∨
      ((process_one_file t ec tc acc f).2.errors.length = acc.2.errors.length + 1 ∧
        (process_one_file t ec tc acc f).2.results = acc.2.results ∧
        (process_one_file t ec tc acc f).2.multi_marked = acc.2.multi_marked) ∨
      ((process_one_file t ec tc acc f).2.multi_marked.length = acc.2.multi_marked.length + 1 ∧
        (process_one_file t ec tc acc f).2.results = acc.2.results ∧
        (process_one_file t ec tc acc f).2.errors = acc.2.errors)) := by
  constructor
  · exact foldl_process_rows t ec tc files ({ st with files_not_moved := 0 }, o)
  · intro acc f img hdec
    unfold process_one_file check_and_move
    cases hp : process_files_preprocess t img with
    | none =>
      refine Or.inr (Or.inl ?_)
      simp [hdec, hp]
    | some pre =>
      simp only [hdec, hp]
      split
      · refine Or.inl ?_
        simp
      · refine Or.inr (Or.inr ?_)
        simp

/-- Witness for `c3_exactly_one_channel`: on a one-image directory the
row total goes from 0 to 1, and the decodable image `demoFileA` grows
exactly the Results channel. -/
theorem c3_exactly_one_channel_witness :
    total_rows (process_files (demoTemplate []) none CONFIG_DEFAULTS [demoFileA]
        {} (setup_outputs_for_template (demoTemplate []))).2 =
      total_rows (setup_outputs_for_template (demoTemplate [])) + decoded_count [demoFileA] ∧
    demoFileA.decoded = some 1 ∧
    (((process_one_file (demoTemplate []) none CONFIG_DEFAULTS
          ({}, setup_outputs_for_template (demoTemplate [])) demoFileA).2.results.length =
        (setup_outputs_for_template (demoTemplate [])).results.length + 1 ∧
      (process_one_file (demoTemplate []) none CONFIG_DEFAULTS
          ({}, setup_outputs_for_template (demoTemplate [])) demoFileA).2.errors =
        (setup_outputs_for_template (demoTemplate [])).errors ∧
      (process_one_file (demoTemplate []) none CONFIG_DEFAULTS
          ({}, setup_outputs_for_template (demoTemplate [])) demoFileA).2.multi_marked =
        (setup_outputs_for_template (demoTemplate [])).multi_marked) ∨
     ((process_one_file (demoTemplate []) none CONFIG_DEFAULTS
          ({}, setup_outputs_for_template (demoTemplate [])) demoFileA).2.errors.length =
        (setup_outputs_for_template (demoTemplate [])).errors.length + 1 ∧
      (process_one_file (demoTemplate []) none CONFIG_DEFAULTS
          ({}, setup_outputs_for_template (demoTemplate [])) demoFileA).2.results =
        (setup_outputs_for_template (demoTemplate [])).results ∧
      (process_one_file (demoTemplate []) none CONFIG_DEFAULTS
          ({}, setup_outputs_for_template (demoTemplate [])) demoFileA).2.multi_marked =
        (setup_outputs_for_template (demoTemplate [])).multi_marked) ∨
     ((process_one_file (demoTemplate []) none CONFIG_DEFAULTS
          ({}, setup_outputs_for_template (demoTemplate [])) demoFileA).2.multi_marked.length =
        (setup_outputs_for_template (demoTemplate [])).multi_marked.length + 1 ∧
      (process_one_file (demoTemplate []) none CONFIG_DEFAULTS
          ({}, setup_outputs_for_template (demoTemplate [])) demoFileA).2.results =
        (setup_outputs_for_template (demoTemplate [])).results ∧
      (process_one_file (demoTemplate []) none CONFIG_DEFAULTS
          ({}, setup_outputs_for_template (demoTemplate [])) demoFileA).2.errors =
        (setup_outputs_for_template (demoTemplate [])).errors)) :=
  ⟨(c3_exactly_one_channel (demoTemplate []) none CONFIG_DEFAULTS [demoFileA] {}
      (setup_outputs_for_template (demoTemplate []))).1,
   rfl,
   (c3_exactly_one_channel (demoTemplate []) none CONFIG_DEFAULTS [demoFileA] {}
      (setup_outputs_for_template (demoTemplate []))).2
     ({}, setup_outputs_for_template (demoTemplate [])) demoFileA 1 rfl⟩

/-- C4: a directory node with no locally present template, no inherited
template and no root-injected template, in which image files remain
after exclusion, makes `process_dir` abort with the structural error
that names that directory (entry.py lines 260-266); the subtree below
it is not processed. -/
theorem c4_missing_template_error {Img : Type} (name : String)
    (local_config : Option ConfigFile) (local_eval : Option EvaluationConfig)
    (files : List (OmrFile Img)) (subdirs : DirForest Img) (setLayout : Bool)
    (tuning : TuningConfig) (ec : Option EvaluationConfig) (rs : RunState)
    (h : discovered_omr_files setLayout none local_eval files ≠ []) :
    process_dir (DirTree.mk name local_config none local_eval files subdirs) setLayout
        none none tuning ec rs =
      Except.error ("No template file found in the directory tree of " ++ name) := by
  rcases hlist : discovered_omr_files setLayout (none : Option (Template Img)) local_eval files
    with _ | ⟨f, fs⟩
  · exact absurd hlist h
  · unfold process_dir
    have hnode : process_node name setLayout (none : Option (Template Img))
        (resolve_tuning local_config tuning)
        (resolve_evaluation_config setLayout local_eval ec) local_eval files rs =
      Except.error ("No template file found in the directory tree of " ++ name) := by
      unfold process_node
      simp only [hlist]
    simp only [resolve_template, hnode]

/-- Witness for `c4_missing_template_error`: a template-less directory
holding one image aborts with the error naming it. -/
theorem c4_missing_template_error_witness :
    discovered_omr_files false (none : Option (Template Nat)) none [demoFileA] ≠ [] ∧
    process_dir (DirTree.mk "lonely" none none none [demoFileA] DirForest.nil) false
        none none CONFIG_DEFAULTS none RunState.init =
      Except.error ("No template file found in the directory tree of " ++ "lonely") :=
  ⟨by decide,
   c4_missing_template_error "lonely" none none [demoFileA] DirForest.nil false
     CONFIG_DEFAULTS none RunState.init (by decide)⟩

/-- C5: on a parent/child walk, the tuning parameters logged for the
parent are `resolve_tuning pCfg t0` (`t0` being whatever the parent
inherited) and those for the child are
`resolve_tuning cCfg (resolve_tuning pCfg t0)` — the parent's resolved
value passed unchanged when the child has no local config file
(`resolve_tuning none` is the identity), and the merge of system
defaults with the child's local file, independent of every parent
value, when it has one (entry.py lines 171-174 and 292-302). -/
theorem c5_tuning_resolution (pCfg cCfg : Option ConfigFile) (t0 : TuningConfig) :
    (process_dir (c5Tree pCfg cCfg) false none none t0 none RunState.init).map
        RunState.tuning_trace =
      Except.ok [("parent", resolve_tuning pCfg t0),
        ("child", resolve_tuning cCfg (resolve_tuning pCfg t0))] ∧
    resolve_tuning none (resolve_tuning pCfg t0) = resolve_tuning pCfg t0 ∧
    (∀ (f : ConfigFile) (p₁ p₂ : TuningConfig),
      resolve_tuning (some f) p₁ = resolve_tuning (some f) p₂) ∧
    (∀ (f : ConfigFile) (p : TuningConfig),
      resolve_tuning (some f) p = open_config_with_defaults f) := by
  refine ⟨?_, rfl, fun f p₁ p₂ => rfl, fun f p => rfl⟩
  cases pCfg <;> cases cCfg <;> rfl

/-- C6: an image that decodes but whose preprocessing pipeline returns
the failure-signal produces exactly one appended row, in the Errors
file only, carrying the "NA" score placeholder and the empty response
template, and `files_not_moved` increments by exactly one (via
`check_and_move`); Results and MultiMarked are untouched (entry.py
lines 363-371, 418-421). -/
theorem c6_preprocessing_failure_errors_only {Img : Type} (t : Template Img)
    (ec : Option EvaluationConfig) (tc : TuningConfig) (st : Stats) (o : Outputs)
    (f : OmrFile Img) (img : Img) (hdec : f.decoded = some img)
    (hpre : process_files_preprocess t img = none) :
    process_one_file t ec tc (st, o) f =
      ({ st with files_not_moved := st.files_not_moved + 1 },
       { o with
          output_set := o.output_set ++ [f.file_name :: o.empty_resp]
          errors := o.errors ++
            [{ file_name := f.file_name
               file_path := f.file_path
               new_file_path := o.errors_dir ++ "/" ++ f.file_name
               score := ScoreField.na
               responses := o.empty_resp }] }) := by
  unfold process_one_file check_and_move
  simp only [hdec, hpre, if_true]

/-- Witness for `c6_preprocessing_failure_errors_only`: a marker step
that fails on `demoFileA` yields exactly the one Errors row with "NA"
and empty responses, and the counter moves from 0 to 1. -/
theorem c6_preprocessing_failure_errors_only_witness :
    demoFileA.decoded = some 1 ∧
    process_files_preprocess (demoTemplate [failingMarkersStep]) 1 = none ∧
    process_one_file (demoTemplate [failingMarkersStep]) none CONFIG_DEFAULTS
        ({}, setup_outputs_for_template (demoTemplate [failingMarkersStep])) demoFileA =
      ({ files_moved := 0, files_not_moved := 1 },
       { empty_resp := ["", ""]
         save_marked_dir := "CheckedOMRs"
         errors_dir := "Errors"
         multi_marked_dir := "MultiMarkedFiles"
         output_set := [["a.png", "", ""]]
         results := []
         errors := [{ file_name := "a.png"
                      file_path := "dir/a.png"
                      new_file_path := "Errors/a.png"
                      score := ScoreField.na
                      responses := ["", ""] }]
         multi_marked := [] }) :=
  ⟨rfl, rfl,
   c6_preprocessing_failure_errors_only (demoTemplate [failingMarkersStep]) none
     CONFIG_DEFAULTS {} (setup_outputs_for_template (demoTemplate [failingMarkersStep]))
     demoFileA 1 rfl rfl⟩

/-- Processing one file preserves the score-field discipline of the
three tabular files. -/
theorem process_one_file_scores {Img : Type} (t : Template Img)
    (ec : Option EvaluationConfig) (tc : TuningConfig) (acc : Stats × Outputs)
    (f : OmrFile Img) (h : score_fields_ok ec acc.2) :
    score_fields_ok ec (process_one_file t ec tc acc f).2 := by
  obtain ⟨he, hm, hr, hr0⟩ := h
  unfold process_one_file check_and_move
  cases hd : f.decoded with
  | none => exact ⟨he, hm, hr, hr0⟩
  | some img =>
    cases hp : process_files_preprocess t img with
    | none =>
      simp only [hp]
      refine ⟨?_, hm, hr, hr0⟩
      intro r hrm
      rcases List.mem_append.mp hrm with h1 | h1
      · exact he r h1
      · rw [List.mem_singleton.mp h1]
    | some pre =>
      simp only [hp]
      split
      · refine ⟨he, hm, ?_, ?_⟩
        · intro r hrm
          rcases List.mem_append.mp hrm with h1 | h1
          · exact hr r h1
          · rw [List.mem_singleton.mp h1]
            exact ⟨_, rfl⟩
        · intro hecn
          subst hecn
          intro r hrm
          rcases List.mem_append.mp hrm with h1 | h1
          · exact hr0 rfl r h1
          · rw [List.mem_singleton.mp h1]
      · refine ⟨he, ?_, hr, hr0⟩
        intro r hrm
        rcases List.mem_append.mp hrm with h1 | h1
        · exact hm r h1
        · rw [List.mem_singleton.mp h1]

/-- Folding `process_one_file` over a file list preserves the
score-field discipline. -/
theorem foldl_process_scores {Img : Type} (t : Template Img)
    (ec : Option EvaluationConfig) (tc : TuningConfig) :
    ∀ (files : List (OmrFile Img)) (acc : Stats × Outputs), score_fields_ok ec acc.2 →
      score_fields_ok ec (files.foldl (process_one_file t ec tc) acc).2 := by
  intro files
  induction files with
  | nil => intro acc h; exact h
  | cons f fs ih =>
    intro acc h
    rw [List.foldl_cons]
    exact ih _ (process_one_file_scores t ec tc acc f h)

/-- C7, counterexample: the claim says a row lacking a computed score
(here: no scoring key is resolved, `evaluation_config = None`) carries
a non-numeric placeholder in its score field.  Processing `demoFileA`
with no evaluation config writes a Results row whose score field is the
numeric 0 (entry.py lines 386-387 and 405), not "NA". -/
theorem c7_counterexample :
    ((process_one_file (demoTemplate []) none CONFIG_DEFAULTS
        ({}, setup_outputs_for_template (demoTemplate [])) demoFileA).2.results.map
      Row.score) = [ScoreField.num 0] ∧ ScoreField.num 0 ≠ ScoreField.na :=
  ⟨rfl, by decide⟩

/-- C7 (amended): the score field depends on the output channel, not on
whether a score was computed: Errors and MultiMarked rows always carry
the "NA" placeholder (a MultiMarked row carries "NA" even when a
scoring key was resolved and a score computed); Results rows always
carry a numeric score — the engine-computed score when an evaluation
config is resolved, the numeric 0 (not a non-numeric placeholder)
otherwise. -/
theorem c7_score_field_discipline {Img : Type} (t : Template Img)
    (ec : Option EvaluationConfig) (tc : TuningConfig) (files : List (OmrFile Img))
    (st : Stats) :
    score_fields_ok ec
      (process_files t ec tc files st (setup_outputs_for_template t)).2 ∧
    (∀ (e : EvaluationConfig) (acc : Stats × Outputs) (f : OmrFile Img) (img pre : Img),
      ec = some e → f.decoded = some img → process_files_preprocess t img = some pre →
      ((t.read_omr_response pre).2 == false || !tc.filter_out_multimarked_files) = true →
      (process_one_file t ec tc acc f).2.results = acc.2.results ++
        [{ file_name := f.file_name
           file_path := f.file_path
           new_file_path := acc.2.save_marked_dir ++ "/" ++ f.file_name
           score := ScoreField.num
             (e.evaluate (t.output_columns.map (t.read_omr_response pre).1))
           responses := t.output_columns.map (t.read_omr_response pre).1 }]) := by
  constructor
  · refine foldl_process_scores t ec tc files _ ?_
    unfold setup_outputs_for_template score_fields_ok
    simp
  · intro e acc f img pre hece hdec hpre hcond
    subst hece
    unfold process_one_file
    simp only [hdec, hpre, hcond, if_true]

/-- Witness for `c7_score_field_discipline`: with the `demoEval`
scoring key resolved, the Results row for `demoFileA` carries the
engine-computed score 2 (the demo engine scores a response list by its
length). -/
theorem c7_score_field_discipline_witness :
    (process_one_file (demoTemplate []) (some demoEval) CONFIG_DEFAULTS
        ({}, setup_outputs_for_template (demoTemplate [])) demoFileA).2.results =
      (setup_outputs_for_template (demoTemplate [])).results ++
        [{ file_name := "a.png"
           file_path := "dir/a.png"
           new_file_path := "CheckedOMRs/a.png"
           score := ScoreField.num 2
           responses := ["1", "B"] }] :=
  (c7_score_field_discipline (demoTemplate []) (some demoEval) CONFIG_DEFAULTS
    [demoFileA] {}).2 demoEval ({}, setup_outputs_for_template (demoTemplate []))
    demoFileA 1 1 rfl rfl rfl rfl

/-- C8: an image file that fails to decode is skipped: processing it
changes neither the statistics nor any output channel, and the loop
continues with the next file (entry.py lines 341-344). -/
theorem c8_decode_failure_skipped {Img : Type} (t : Template Img)
    (ec : Option EvaluationConfig) (tc : TuningConfig) (st : Stats) (o : Outputs)
    (f : OmrFile Img) (rest : List (OmrFile Img)) (h : f.decoded = none) :
    process_one_file t ec tc (st, o) f = (st, o) ∧
    process_files t ec tc (f :: rest) st o = process_files t ec tc rest st o := by
  have h1 : ∀ acc : Stats × Outputs, process_one_file t ec tc acc f = acc := by
    intro acc
    unfold process_one_file
    simp only [h]
  refine ⟨h1 (st, o), ?_⟩
  unfold process_files
  rw [List.foldl_cons, h1]

/-- Witness for `c8_decode_failure_skipped`: the undecodable
`demoBadFile` leaves statistics and outputs untouched. -/
theorem c8_decode_failure_skipped_witness :
    demoBadFile.decoded = none ∧
    process_one_file (demoTemplate []) none CONFIG_DEFAULTS
        ({}, setup_outputs_for_template (demoTemplate [])) demoBadFile =
      ({}, setup_outputs_for_template (demoTemplate [])) :=
  ⟨rfl,
   (c8_decode_failure_skipped (demoTemplate []) none CONFIG_DEFAULTS {}
     (setup_outputs_for_template (demoTemplate [])) demoBadFile [] rfl).1⟩

/-- Folding the exclusion query with an arbitrary accumulator appends
exactly the per-step contributions (empty for a failing query). -/
theorem excluded_of_steps_foldl {Img : Type} :
    ∀ (steps : List (Step Img)) (acc : List String),
      steps.foldl
        (fun acc pp =>
          match pp.exclude_files with
          | Except.ok fs => acc ++ fs
          | Except.error _ => acc) acc
      = acc ++ (steps.map step_exclusion_contribution).join := by
  intro steps
  induction steps with
  | nil => intro acc; simp
  | cons pp rest ih =>
    intro acc
    rw [List.foldl_cons]
    cases hpp : pp.exclude_files with
    | ok fs =>
      simp only [hpp]
      rw [ih]
      simp [step_exclusion_contribution, hpp, List.append_assoc]
    | error e =>
      simp only [hpp]
      rw [ih]
      simp [step_exclusion_contribution, hpp]

/-- C9: each active step contributes its declared exclusion paths when
its query succeeds and the empty set when its query raises; a failing
query is absorbed (the step simply contributes nothing — the total
exclusion set is the concatenation of per-step contributions), never
aborting the directory's processing, and steps whose queries succeed
still contribute their declared paths (entry.py lines 232-239). -/
theorem c9_exclusion_failures_absorbed {Img : Type} :
    (∀ steps : List (Step Img),
      excluded_of_steps steps = (steps.map step_exclusion_contribution).join) ∧
    (∀ (pp : Step Img) (rest : List (Step Img)), pp.exclude_files = Except.error () →
      excluded_of_steps (pp :: rest) = excluded_of_steps rest) ∧
    (∀ (pp : Step Img) (rest : List (Step Img)) (fs : List String),
      pp.exclude_files = Except.ok fs →
      excluded_of_steps (pp :: rest) = fs ++ excluded_of_steps rest) := by
  have hjoin : ∀ steps : List (Step Img),
      excluded_of_steps steps = (steps.map step_exclusion_contribution).join := by
    intro steps
    unfold excluded_of_steps
    rw [excluded_of_steps_foldl]
    simp
  refine ⟨hjoin, ?_, ?_⟩
  · intro pp rest hpp
    rw [hjoin, hjoin]
    simp [step_exclusion_contribution, hpp]
  · intro pp rest fs hpp
    rw [hjoin, hjoin]
    simp [step_exclusion_contribution, hpp]

/-- Witness for `c9_exclusion_failures_absorbed`: a step whose query
raises contributes nothing, while its successor's declared marker asset
is still excluded. -/
theorem c9_exclusion_failures_absorbed_witness :
    failingQueryStep.exclude_files = Except.error () ∧
    excluded_of_steps [failingQueryStep, cropOnMarkersStep] =
      excluded_of_steps [cropOnMarkersStep] ∧
    excluded_of_steps [cropOnMarkersStep] = ["omr_marker.jpg"] :=
  ⟨rfl,
   c9_exclusion_failures_absorbed.2.1 failingQueryStep [cropOnMarkersStep] rfl,
   rfl⟩

/-- C10: an image classified as Success (multi-mark indicator false, or
multi-mark filtering not requested) also increments
`STATS.files_not_moved` by exactly one (entry.py lines 402-408), so the
counter tallies successes as well as failures and is not a
failure-only counter. -/
theorem c10_success_increments_files_not_moved {Img : Type} (t : Template Img)
    (ec : Option EvaluationConfig) (tc : TuningConfig) (st : Stats) (o : Outputs)
    (f : OmrFile Img) (img pre : Img) (hdec : f.decoded = some img)
    (hpre : process_files_preprocess t img = some pre)
    (hsucc : ((t.read_omr_response pre).2 == false ||
      !tc.filter_out_multimarked_files) = true) :
    (process_one_file t ec tc (st, o) f).1.files_not_moved = st.files_not_moved + 1 ∧
    (process_one_file t ec tc (st, o) f).1.files_moved = st.files_moved ∧
    (process_one_file t ec tc (st, o) f).2.results.length = o.results.length + 1 ∧
    (process_one_file t ec tc (st, o) f).2.errors = o.errors ∧
    (process_one_file t ec tc (st, o) f).2.multi_marked = o.multi_marked := by
  unfold process_one_file
  simp only [hdec, hpre, hsucc, if_true]
  simp

/-- Witness for `c10_success_increments_files_not_moved`: the
successful `demoFileA` takes `files_not_moved` from 0 to 1 and appends
one Results row. -/
theorem c10_success_increments_files_not_moved_witness :
    demoFileA.decoded = some 1 ∧
    process_files_preprocess (demoTemplate []) 1 = some 1 ∧
    (process_one_file (demoTemplate []) none CONFIG_DEFAULTS
        ({}, setup_outputs_for_template (demoTemplate [])) demoFileA).1.files_not_moved
      = 1 :=
  ⟨rfl, rfl,
   (c10_success_increments_files_not_moved (demoTemplate []) none CONFIG_DEFAULTS {}
     (setup_outputs_for_template (demoTemplate [])) demoFileA 1 1 rfl rfl rfl).1⟩

end OMR
